import Mathlib

/-!
Verification of the qa4sm-reader metadata/name-resolution engine
(`src/qa4sm_reader/handlers.py`) against its natural-language specification.

The Python classes `QA4SMDatasets`, `QA4SMMetricVariable` and `QA4SMMetric` are
embedded as pure Lean functions over an explicit attribute map.  Fallible Python
code (``KeyError``, ``TypeError``, ``AssertionError``) becomes `Except Err`.

The sources given for this repository do not include `qa4sm_reader/globals.py`
(the table of key and variable-name templates) nor the third-party `parse`
library; those parts are modelled from the spec, and each such definition is
marked with a doc comment starting with "Modelled from the spec".  Everything
else is translated directly from `handlers.py`.
-/

set_option maxHeartbeats 1000000

deriving instance DecidableEq for Except

namespace Qa4sm

/-- Runtime failures of the handler code, one constructor per kind of Python
exception the translated code can raise.  The spec's error taxonomy maps onto
these as noted on each constructor. -/
inductive Err where
  /-- `KeyError` on the global attribute naming the reference dataset
  (spec: `MissingReferenceAttribute`), raised in `QA4SMDatasets._ref_dc`. -/
  | missingReference
  /-- `TypeError` raised in `QA4SMDatasets._ref_dc` when the reference
  attribute's value does not match the short-name key template (the `parse`
  call returns `None`, which is then subscripted). -/
  | refValueNotParsed
  /-- `KeyError` on a dataset-metadata attribute key in
  `QA4SMDatasets._dc_names`, or a missing entry of a parts dictionary
  (spec: `UnknownDatasetId`). -/
  | keyError
  /-- `TypeError` raised by calling a non-callable value (a `bool`). -/
  | typeErr
  /-- `AssertionError` in `QA4SMMetric._get_attribute`
  (spec: `InconsistentMetricAttribute`). -/
  | inconsistentAttribute
  /-- `UnboundLocalError`: a Python local variable read before assignment. -/
  | unboundLocal
deriving DecidableEq, Repr

/-- Numeric value of a list of decimal digit characters. -/
def digitsVal (ds : List Char) : Int :=
  ds.foldl (fun a c => a * 10 + ((c.toNat : Int) - 48)) 0

/-- Modelled from the spec: how an integer field of a key template matches, as
the `parse` library's `:d` fields do — an optional minus sign followed by one
or more decimal digits. -/
def parseIntChars (cs : List Char) : Option Int :=
  match cs with
  | [] => none
  | '-' :: ds => if ds ≠ [] ∧ ds.all Char.isDigit then some (-(digitsVal ds)) else none
  | ds => if ds.all Char.isDigit then some (digitsVal ds) else none

/-- Modelled from the spec: the name of the global attribute identifying the
reference dataset (`globals._ref_ds_attr`; `globals.py` is not part of the
given sources). -/
def refDsAttr : String := "val_ref"

/-- Modelled from the spec: the attribute-key template "short name of dataset
N" (`globals._ds_short_name_attr`), instantiated at index `dc` as Python's
`str.format` does. -/
def shortNameKey (dc : Int) : String := "val_dc_dataset" ++ toString dc

/-- Modelled from the spec: the attribute-key template "pretty name of dataset
N" (`globals._ds_pretty_name_attr`). -/
def prettyNameKey (dc : Int) : String := "val_dc_dataset_pretty_name" ++ toString dc

/-- Modelled from the spec: the attribute-key template "short version of
dataset N" (`globals._version_short_name_attr`). -/
def shortVersionKey (dc : Int) : String := "val_dc_version" ++ toString dc

/-- Modelled from the spec: the attribute-key template "pretty version of
dataset N" (`globals._version_pretty_name_attr`). -/
def prettyVersionKey (dc : Int) : String := "val_dc_version_pretty_name" ++ toString dc

/-- Modelled from the spec: matching a string against the short-name key
template, returning the captured integer index (the `parse` call in
`QA4SMDatasets._ref_dc` and `QA4SMDatasets._dcs`; such a match always captures
exactly one field). -/
def parseShortName (s : String) : Option Int :=
  if ("val_dc_dataset".toList).isPrefixOf s.toList then
    parseIntChars (s.toList.drop 14)
  else none

/-- The global attributes of a results file: an ordered string-keyed mapping,
as Python presents `ds.attrs`.  Keys are unique in an actual attribute
dictionary; insertion order is preserved. -/
abbrev AttrMap := List (String × String)

/-- Dictionary lookup `meta[k]` (first matching key). -/
def lookupAttr (m : AttrMap) (k : String) : Option String :=
  (m.find? (fun kv => kv.1 == k)).map (fun kv => kv.2)

/-- `QA4SMDatasets._ref_dc`: position of the reference dataset as an internal
index.  A missing reference attribute is a `KeyError` (re-raised); a value not
matching the short-name template is a `TypeError` (`parse` returns `None`,
which is subscripted with `[0]`). -/
def refDc (m : AttrMap) : Except Err Int :=
  match lookupAttr m refDsAttr with
  | none => .error .missingReference
  | some v =>
    match parseShortName v with
    | none => .error .refValueNotParsed
    | some dc => .ok dc

/-- `QA4SMDatasets.offset`: `-1` if the reference's internal index is not `0`,
else `0`. -/
def offset (m : AttrMap) : Except Err Int :=
  (refDc m).map (fun dc => if dc ≠ 0 then -1 else 0)

/-- `QA4SMDatasets._ref_id`: `self._ref_dc() - self.offset`. -/
def refIdAux (m : AttrMap) : Except Err Int := do
  let dc ← refDc m
  let off ← offset m
  pure (dc - off)

/-- Python dictionary assignment `d[k] = v`: overwrite in place if the key is
present, else append. -/
def insertDict (d : List (Int × String)) (k : Int) (v : String) : List (Int × String) :=
  if d.any (fun p => p.1 == k) then
    d.map (fun p => if p.1 == k then (k, v) else p)
  else d ++ [(k, v)]

/-- One iteration of the key-scanning loop in `QA4SMDatasets._dcs`: keys
matching the short-name template (such a match captures exactly one field)
whose index differs from the reference's are recorded.  As in the Python loop,
`self._ref_dc()` is only demanded once some key matches, so a missing
reference attribute surfaces only then. -/
def dcsStep (m : AttrMap) (d : List (Int × String)) (kv : String × String) :
    Except Err (List (Int × String)) :=
  match parseShortName kv.1 with
  | some dc => do
      let r ← refDc m
      if dc ≠ r then pure (insertDict d dc kv.1) else pure d
  | none => pure d

/-- `QA4SMDatasets._dcs`: scan every attribute key and record, in a dict keyed
by the captured index, every short-name key whose index differs from the
reference's. -/
def dcs (m : AttrMap) : Except Err (List (Int × String)) :=
  m.foldlM (dcsStep m) []

/-- `QA4SMDatasets.ref_id`: id of the reference dataset as in the variable
names, `self._ref_dc() - self.offset`. -/
def ref_id (m : AttrMap) : Except Err Int := do
  let dc ← refDc m
  let off ← offset m
  pure (dc - off)

/-- `QA4SMDatasets.others_id`: ids of the non-reference datasets as in the
variable names, `[dc - self.offset for dc in self._dcs().keys()]` (the
`offset` property is re-evaluated per element, as in the comprehension). -/
def others_id (m : AttrMap) : Except Err (List Int) := do
  let d ← dcs m
  d.mapM (fun p => do
    let off ← offset m
    pure (p.1 - off))

/-- `QA4SMDatasets._id2dc`: `id + self.offset`. -/
def id2dc (m : AttrMap) (id : Int) : Except Err Int := do
  let off ← offset m
  pure (id + off)

/-- `QA4SMDatasets.n_datasets`: `len(self._dcs().keys()) + 1`. -/
def n_datasets (m : AttrMap) : Except Err Nat :=
  (dcs m).map (fun d => d.length + 1)

/-- Dictionary lookup `meta[k]`, raising `KeyError` when absent. -/
def attrGet (m : AttrMap) (k : String) : Except Err String :=
  match lookupAttr m k with
  | some v => .ok v
  | none => .error .keyError

/-- The metadata record built by `QA4SMDatasets._dc_names`. -/
structure Names where
  short_name : String
  pretty_name : String
  short_version : String
  pretty_version : String
  pretty_title : String
deriving DecidableEq, Repr

/-- `QA4SMDatasets._dc_names`: the four name fields of the dataset at internal
index `dc`, pulled via the index-parameterized key templates, plus the derived
`pretty_title`. -/
def dcNames (m : AttrMap) (dc : Int) : Except Err Names := do
  let sn ← attrGet m (shortNameKey dc)
  let pn ← attrGet m (prettyNameKey dc)
  let sv ← attrGet m (shortVersionKey dc)
  let pv ← attrGet m (prettyVersionKey dc)
  pure { short_name := sn, pretty_name := pn, short_version := sv,
         pretty_version := pv, pretty_title := pn ++ " (" ++ pv ++ ")" }

/-- `QA4SMDatasets.dataset_metadata` (with `element = None`, the only form the
variable-resolution code uses): convert the id to an internal index with
`_id2dc` and return `(id, names)`. -/
def dataset_metadata (m : AttrMap) (id : Int) : Except Err (Int × Names) := do
  let dc ← id2dc m id
  let names ← dcNames m dc
  pure (id, names)

/-! ### The variable-name grammar

`QA4SMMetricVariable._parse_varname` builds, for every metric group `g`, the
pattern `var_name_metric_sep[g] + (var_name_ds_sep[g] or '')` (and the
confidence-interval variant `var_name_CI[g] + ...`) and matches the variable
name against it with the `parse` library.  The template tables live in
`globals.py`, which is not part of the given sources; they are modelled from
the spec below.  A `parse`-library field `{x}` matches one or more characters
non-greedily, and `{x:d}` matches an integer; non-greedy matching is modelled
by trying the split points around a literal separator from left to right. -/

/-- All `(consumed, remainder)` splits of `s` around an occurrence of the
separator `sep`, ordered from the leftmost occurrence (non-greedy order). -/
def splitsAux (sep : List Char) (pre : List Char) : List Char → List (List Char × List Char)
  | [] => []
  | c :: rest =>
    if sep.isPrefixOf (c :: rest) then
      (pre.reverse, (c :: rest).drop sep.length) :: splitsAux sep (c :: pre) rest
    else splitsAux sep (c :: pre) rest

/-- Candidate `(before, after)` splits of a string around a literal template
separator, leftmost occurrence first, as a non-greedy field match tries them. -/
def splitCandidates (sep s : String) : List (String × String) :=
  (splitsAux sep.toList [] s.toList).map (fun ab => (String.mk ab.1, String.mk ab.2))

/-- Match a `{id:d}-{name}` fragment: an integer, a literal dash, and a
nonempty name taking the rest of the fragment. -/
def parseIdName (s : String) : Option (Int × String) :=
  match s.toList with
  | '-' :: t =>
    let ds := t.takeWhile Char.isDigit
    (match ds, t.dropWhile Char.isDigit with
     | [], _ => none
     | _, '-' :: nm => if nm = [] then none else some (-(digitsVal ds), String.mk nm)
     | _, _ => none)
  | t =>
    let ds := t.takeWhile Char.isDigit
    (match ds, t.dropWhile Char.isDigit with
     | [], _ => none
     | _, '-' :: nm => if nm = [] then none else some (digitsVal ds, String.mk nm)
     | _, _ => none)

/-- Match a `{ref_id:d}-{ref_ds}_and_{sat_id0:d}-{ds0}` dataset suffix. -/
def parsePairIds (s : String) : Option ((Int × String) × (Int × String)) :=
  (splitCandidates "_and_" s).findSome? (fun ab => do
    let a ← parseIdName ab.1
    let b ← parseIdName ab.2
    some (a, b))

/-- Match a `{ref_id:d}-{ref_ds}_and_{sat_id0:d}-{ds0}_and_{sat_id1:d}-{ds1}`
dataset suffix. -/
def parseTripleIds (s : String) :
    Option ((Int × String) × ((Int × String) × (Int × String))) :=
  (splitCandidates "_and_" s).findSome? (fun ab => do
    let a ← parseIdName ab.1
    let bc ← parsePairIds ab.2
    some (a, bc))

/-- The named captures of one template match (the `parts.named` dictionary of
the `parse` library); fields that a template does not bind stay `none`. -/
structure Parts where
  metric : String
  bound : Option String := none
  mds_id : Option Int := none
  mds : Option String := none
  ref_id : Option Int := none
  ref_ds : Option String := none
  sat_id0 : Option Int := none
  ds0 : Option String := none
  sat_id1 : Option Int := none
  ds1 : Option String := none
deriving DecidableEq, Repr

/-- Modelled from the spec: the known-metric set of each group
(`globals.metric_groups`) — `0` the "common" group, `2` the pairwise group,
`3` the triple-collocation group. -/
def metric_groups : Nat → List String
  | 0 => ["n_obs"]
  | 2 => ["R", "p_R", "rho", "p_rho", "RMSD", "BIAS", "urmsd", "RSS",
          "mse", "mse_corr", "mse_bias", "mse_var", "tau", "p_tau"]
  | 3 => ["snr", "err_std", "beta"]
  | _ => []

/-- Modelled from the spec: the iteration order of `globals.metric_groups`
(Python dict insertion order), the fixed priority order of the grammar. -/
def metric_group_keys : List Nat := [0, 2, 3]

/-- Modelled from the spec: the primary template of each group —
group 0 `"{metric}"`; group 2 `"{metric}_between_"` plus the pairwise dataset
suffix; group 3 `"{metric}_{mds_id:d}-{mds}_between_"` plus the
triple-collocation dataset suffix (`globals.var_name_metric_sep` and
`globals.var_name_ds_sep`). -/
def matchPrimary (g : Nat) (name : String) : Option Parts :=
  match g with
  | 0 => if name = "" then none else some { metric := name }
  | 2 =>
    (splitCandidates "_between_" name).findSome? (fun pq =>
      if pq.1 = "" then none else
      (parsePairIds pq.2).map (fun rs =>
        { metric := pq.1,
          ref_id := some rs.1.1, ref_ds := some rs.1.2,
          sat_id0 := some rs.2.1, ds0 := some rs.2.2 }))
  | 3 =>
    (splitCandidates "_between_" name).findSome? (fun pq =>
      ((splitCandidates "_" pq.1).findSome? (fun mh =>
        if mh.1 = "" then none else
        (parseIdName mh.2).map (fun mi => (mh.1, mi)))).bind (fun mmi =>
      (parseTripleIds pq.2).map (fun t =>
        { metric := mmi.1, mds_id := some mmi.2.1, mds := some mmi.2.2,
          ref_id := some t.1.1, ref_ds := some t.1.2,
          sat_id0 := some t.2.1.1, ds0 := some t.2.1.2,
          sat_id1 := some t.2.2.1, ds1 := some t.2.2.2 })))
  | _ => none

/-- Modelled from the spec: the confidence-interval template of each group —
the primary template with `_ci_{bound}` after the metric token
(`globals.var_name_CI`). -/
def matchCI (g : Nat) (name : String) : Option Parts :=
  match g with
  | 0 =>
    (splitCandidates "_ci_" name).findSome? (fun mb =>
      if mb.1 = "" ∨ mb.2 = "" then none else
      some { metric := mb.1, bound := some mb.2 })
  | 2 =>
    (splitCandidates "_between_" name).findSome? (fun pq =>
      ((splitCandidates "_ci_" pq.1).findSome? (fun mb =>
        if mb.1 = "" ∨ mb.2 = "" then none else some (mb.1, mb.2))).bind (fun mb =>
      (parsePairIds pq.2).map (fun rs =>
        { metric := mb.1, bound := some mb.2,
          ref_id := some rs.1.1, ref_ds := some rs.1.2,
          sat_id0 := some rs.2.1, ds0 := some rs.2.2 })))
  | 3 =>
    (splitCandidates "_between_" name).findSome? (fun pq =>
      ((splitCandidates "_ci_" pq.1).findSome? (fun mr =>
        if mr.1 = "" then none else
        (splitCandidates "_" mr.2).findSome? (fun bi =>
          if bi.1 = "" then none else
          (parseIdName bi.2).map (fun mi => (mr.1, bi.1, mi))))).bind (fun q =>
      (parseTripleIds pq.2).map (fun t =>
        { metric := q.1, bound := some q.2.1,
          mds_id := some q.2.2.1, mds := some q.2.2.2,
          ref_id := some t.1.1, ref_ds := some t.1.2,
          sat_id0 := some t.2.1.1, ds0 := some t.2.1.2,
          sat_id1 := some t.2.2.1, ds1 := some t.2.2.2 })))
  | _ => none

/-- The confidence-interval attempt of one group in
`QA4SMMetricVariable._parse_varname`: accept a CI-template match whose metric
token is a known metric of the group. -/
def tryCIForGroup (g : Nat) (name : String) : Option (String × Nat × Parts) :=
  match matchCI g name with
  | some p => if (metric_groups g).contains p.metric then some (p.metric, g, p) else none
  | none => none

/-- One iteration of the group loop in `QA4SMMetricVariable._parse_varname`:
try the primary template, and on a failed match or an unrecognized metric
token fall back to the group's confidence-interval template. -/
def tryGroup (g : Nat) (name : String) : Option (String × Nat × Parts) :=
  match matchPrimary g name with
  | some p =>
    if (metric_groups g).contains p.metric then some (p.metric, g, p)
    else tryCIForGroup g name
  | none => tryCIForGroup g name

/-- The group loop of `QA4SMMetricVariable._parse_varname`: first group that
accepts wins; when no group accepts, the Python returns
`(None, None, None)`. -/
def parseGroups : List Nat → String → Option (String × Nat × Parts)
  | [], _ => none
  | g :: gs, name =>
    match tryGroup g name with
    | some r => some r
    | none => parseGroups gs name

/-- `QA4SMMetricVariable._parse_varname`: metric name, group and named parts of
a variable name, or `none` when the name belongs to no known metric grammar.
The function is total: a non-metric name yields `none`, never an error. -/
def parse_varname (name : String) : Option (String × Nat × Parts) :=
  parseGroups metric_group_keys name

/-! ### Metric variables and metrics -/

/-- Lookup of an entry of the named-parts dictionary, `KeyError` when the
template did not bind it. -/
def partsGet {α : Type} : Option α → Except Err α
  | some a => .ok a
  | none => .error .keyError

/-- Modelled from the spec: the per-metric pretty-name table
(`globals._metric_name`, used by `QA4SMMetric.__init__`); its entries are
display strings.  The real table is keyed by the known metric names; it is
only ever evaluated at recognized metric tokens, so it is modelled total. -/
def metricPrettyName (name : String) : String :=
  match name with
  | "n_obs" => "Number of observations"
  | "R" => "Pearson correlation"
  | "p_R" => "Pearson correlation p-value"
  | "rho" => "Spearman rank correlation"
  | "RMSD" => "Root-mean-square deviation"
  | "BIAS" => "Bias"
  | "snr" => "Signal-to-noise ratio"
  | "err_std" => "Error standard deviation"
  | "beta" => "TC scaling coefficient"
  | m => m

/-- `QA4SMMetricVariable.get_varmeta`: reference, metric and "other" dataset of
a variable, each as `(id, names)`.  For the triple-collocation group the
"other" slot starts from `sat_id1` and is re-resolved from `sat_id0` when it
coincides with the metric dataset. -/
def get_varmeta (m : AttrMap) (g : Nat) (p : Parts) :
    Except Err ((Int × Names) × Option (Int × Names) × Option (Int × Names)) :=
  if g = 0 then do
    let rid ← refIdAux m
    let r ← dataset_metadata m rid
    pure (r, none, none)
  else do
    let ridv ← partsGet p.ref_id
    let r ← dataset_metadata m ridv
    let s0 ← partsGet p.sat_id0
    let mds0 ← dataset_metadata m s0
    if g = 3 then do
      let mi ← partsGet p.mds_id
      let mds ← dataset_metadata m mi
      let s1 ← partsGet p.sat_id1
      let dss1 ← dataset_metadata m s1
      let dss ← if dss1 = mds then dataset_metadata m s0 else pure dss1
      pure (r, some mds, some dss)
    else
      pure (r, some mds0, none)

/-- The attributes a `QA4SMMetricVariable` instance carries after `__init__`;
attributes the constructor leaves unset are `none`. -/
structure Variable where
  varname : String
  metric : Option String
  g : Option Nat
  parts : Option Parts
  metricPretty : Option String
  ref_ds : Option (Int × Names)
  metric_ds : Option (Int × Names)
  other_ds : Option (Int × Names)
  bound : Option String
deriving DecidableEq, Repr

/-- Python truthiness of the parsed group as tested by `if self.g:` — false for
`None` and for group `0`. -/
def gTruthy : Option Nat → Bool
  | some g => g ≠ 0
  | none => false

/-- `QA4SMMetricVariable.__init__`: parse the name; when the group is truthy
(not `None` and not `0`), attach the metric pretty name and the resolved
datasets, and record the CI bound when the parts carry one.  A name that is
not a metric variable (and also a group-0 name) constructs without error and
without attached datasets. -/
def Variable.init (varname : String) (attrs : AttrMap) : Except Err Variable :=
  match parse_varname varname with
  | some (metric, g, parts) =>
    if g ≠ 0 then do
      let meta ← get_varmeta attrs g parts
      pure { varname, metric := some metric, g := some g, parts := some parts,
             metricPretty := some (metricPrettyName metric),
             ref_ds := some meta.1, metric_ds := meta.2.1, other_ds := meta.2.2,
             bound := parts.bound }
    else
      pure { varname, metric := some metric, g := some g, parts := some parts,
             metricPretty := none, ref_ds := none, metric_ds := none,
             other_ds := none, bound := none }
  | none =>
    pure { varname, metric := none, g := none, parts := none, metricPretty := none,
           ref_ds := none, metric_ds := none, other_ds := none, bound := none }

/-- `QA4SMMetricVariable.ismetric`: `self.g is not None`. -/
def Variable.ismetric (v : Variable) : Bool := v.g.isSome

/-- `QA4SMMetricVariable.is_CI` (a Python property): when the group is truthy,
whether the parts dictionary carries a `bound` key; else `False`. -/
def Variable.is_CI (v : Variable) : Bool :=
  if gTruthy v.g then (v.parts.map (fun p => p.bound.isSome)).getD false
  else false

/-- `QA4SMMetric._get_attribute`: fold over the variables' values of one
attribute, asserting that each one equals the previous; returns the (shared)
value.  An empty sequence reads the local `value` before assignment. -/
def get_attribute {α : Type} [DecidableEq α] : List α → Except Err α
  | [] => .error .unboundLocal
  | v :: vs => getAttrAux v vs
where
  /-- The loop with `previous` holding the last value seen. -/
  getAttrAux (prev : α) : List α → Except Err α
    | [] => .ok prev
    | v :: vs => if v = prev then getAttrAux v vs else .error .inconsistentAttribute

/-- Calling a `bool` value, as `Var.is_CI()` does in `QA4SMMetric.has_CIs`:
a bool is not callable, so Python raises `TypeError` regardless of the
value. -/
def callBool (_b : Bool) : Except Err Bool :=
  .error .typeErr

/-- `QA4SMMetric.has_CIs`: loop over the variables, stopping at the first one
whose `is_CI()` call is true.  The call `Var.is_CI()` invokes the boolean
value of the property `is_CI`, which raises `TypeError` (modelled by
`callBool`), so any nonempty variable sequence errors. -/
def has_CIs : List Variable → Except Err Bool
  | [] => .ok false
  | v :: vs => do
    let b ← callBool v.is_CI
    if b then pure true else has_CIs vs

/-! ### Concrete attribute maps used as witnesses and counterexamples -/

/-- The spec's concrete scenario (§8): reference at internal index 4
("ERA5"), others at indices 1 ("C3S"), 2 ("ASCAT"), 3 ("SMOS"). -/
def attrsRef4 : AttrMap :=
  [("val_ref", "val_dc_dataset4"),
   ("val_dc_dataset4", "ERA5"), ("val_dc_dataset1", "C3S"),
   ("val_dc_dataset2", "ASCAT"), ("val_dc_dataset3", "SMOS")]

/-- A two-dataset attribute map with the reference at internal index 0 and all
four name fields present for both datasets. -/
def attrsTwo : AttrMap :=
  [("val_ref", "val_dc_dataset0"),
   ("val_dc_dataset0", "R"), ("val_dc_dataset_pretty_name0", "Reference"),
   ("val_dc_version0", "v1"), ("val_dc_version_pretty_name0", "V one"),
   ("val_dc_dataset1", "X"), ("val_dc_dataset_pretty_name1", "Xsat"),
   ("val_dc_version1", "v2"), ("val_dc_version_pretty_name1", "V two")]

/-- `attrsTwo` extended with a third dataset at internal index 2. -/
def attrsThree : AttrMap :=
  attrsTwo ++
  [("val_dc_dataset2", "Y"), ("val_dc_dataset_pretty_name2", "Ysat"),
   ("val_dc_version2", "v3"), ("val_dc_version_pretty_name2", "V three")]

/-- Metadata of the reference dataset of `attrsTwo`. -/
def namesRef : Names :=
  { short_name := "R", pretty_name := "Reference", short_version := "v1",
    pretty_version := "V one", pretty_title := "Reference (V one)" }

/-- Metadata of the dataset at internal index 1 of `attrsTwo`. -/
def namesX : Names :=
  { short_name := "X", pretty_name := "Xsat", short_version := "v2",
    pretty_version := "V two", pretty_title := "Xsat (V two)" }

/-- Metadata of the dataset at internal index 2 of `attrsThree`. -/
def namesY : Names :=
  { short_name := "Y", pretty_name := "Ysat", short_version := "v3",
    pretty_version := "V three", pretty_title := "Ysat (V three)" }

/-- Parts of the degenerate triple-collocation name
`snr_1-X_between_0-R_and_1-X_and_1-X`, whose three candidate ids coincide. -/
def degParts : Parts :=
  { metric := "snr", mds_id := some 1, mds := some "X",
    ref_id := some 0, ref_ds := some "R",
    sat_id0 := some 1, ds0 := some "X", sat_id1 := some 1, ds1 := some "X" }

/-- Parts of the triple-collocation name `snr_1-X_between_0-R_and_2-Y_and_1-X`,
where the metric dataset coincides with the second candidate (`sat_id1`) and
the alternate candidate (`sat_id0`) differs. -/
def tcParts : Parts :=
  { metric := "snr", mds_id := some 1, mds := some "X",
    ref_id := some 0, ref_ds := some "R",
    sat_id0 := some 2, ds0 := some "Y", sat_id1 := some 1, ds1 := some "X" }

/-- The variable built by `Variable.init` from the pairwise
confidence-interval name `R_ci_upper_between_0-R_and_1-X` over `attrsTwo`. -/
def ciVar : Variable :=
  { varname := "R_ci_upper_between_0-R_and_1-X", metric := some "R", g := some 2,
    parts := some { metric := "R", bound := some "upper", ref_id := some 0,
                    ref_ds := some "R", sat_id0 := some 1, ds0 := some "X" },
    metricPretty := some "Pearson correlation",
    ref_ds := some (0, namesRef), metric_ds := some (1, namesX),
    other_ds := none, bound := some "upper" }

/-- The variable built by `Variable.init` from the plain pairwise name
`R_between_0-R_and_1-X` over `attrsTwo`. -/
def plainVar : Variable :=
  { varname := "R_between_0-R_and_1-X", metric := some "R", g := some 2,
    parts := some { metric := "R", ref_id := some 0, ref_ds := some "R",
                    sat_id0 := some 1, ds0 := some "X" },
    metricPretty := some "Pearson correlation",
    ref_ds := some (0, namesRef), metric_ds := some (1, namesX),
    other_ds := none, bound := none }

/-! ### Spec-side descriptions used for refinement claims -/

/-- The flattened priority order of template attempts described by the spec:
groups in the fixed order, and within each group the primary template
(tagged `false`) before the confidence-interval template (tagged `true`). -/
def templateOrder : List (Nat × Bool) :=
  [(0, false), (0, true), (2, false), (2, true), (3, false), (3, true)]

/-- One template attempt of the spec's parse algorithm: match the template and
accept when the captured metric token is a known metric of the group. -/
def tryTemplate (name : String) : Nat × Bool → Option (String × Nat × Parts)
  | (g, ci) =>
    match (if ci then matchCI g name else matchPrimary g name) with
    | some p => if (metric_groups g).contains p.metric then some (p.metric, g, p) else none
    | none => none

/-- The parse algorithm as the spec words it: the first template attempt in
the fixed priority order that accepts the name wins. -/
def firstMatchParse (name : String) : Option (String × Nat × Parts) :=
  templateOrder.findSome? (tryTemplate name)

/-- The aggregation fold as the spec words it: the first variable's attribute
value is the expected one, every subsequent value is compared against it by
equality, short-circuiting on the first mismatch. -/
def firstExpectedFold {α : Type} [DecidableEq α] (expected : α) :
    List α → Except Err α
  | [] => .ok expected
  | v :: vs =>
    if v = expected then firstExpectedFold expected vs
    else .error .inconsistentAttribute

/-- The pure key-scanning step that `dcsStep` reduces to once the reference
index is known to be `r`. -/
def scanStep (r : Int) (d : List (Int × String)) (kv : String × String) :
    List (Int × String) :=
  match parseShortName kv.1 with
  | some dc => if dc ≠ r then insertDict d dc kv.1 else d
  | none => d

/-! ### Helper lemmas -/

theorem okBind {α β : Type} (a : α) (f : α → Except Err β) :
    (Except.ok a >>= f) = f a := rfl

theorem errBind {α β : Type} (e : Err) (f : α → Except Err β) :
    ((Except.error e : Except Err α) >>= f) = .error e := rfl

theorem pureOk {α : Type} (a : α) : (pure a : Except Err α) = .ok a := rfl

theorem mapOfOk {α β : Type} (f : α → β) (a : α) :
    (Except.ok a : Except Err α).map f = .ok (f a) := rfl

theorem mapOfErr {α β : Type} (f : α → β) (e : Err) :
    (Except.error e : Except Err α).map f = .error e := rfl

theorem bindOk {α β : Type} {x : Except Err α} {f : α → Except Err β} {b : β} :
    x >>= f = .ok b ↔ ∃ a, x = .ok a ∧ f a = .ok b := by
  cases x <;> simp [Bind.bind, Except.bind]

theorem mapM_offset_ok {m : AttrMap} {off : Int} (h : offset m = .ok off)
    (d : List (Int × String)) :
    (d.mapM (fun p => do
      let o ← offset m
      pure (p.1 - o))) = .ok (d.map (fun p => p.1 - off)) := by
  induction d with
  | nil => rfl
  | cons p t ih =>
    rw [List.mapM_cons, ih]
    simp only [h, okBind, pureOk, List.map_cons]

theorem foldlM_dcsStep {m : AttrMap} {r : Int} (h : refDc m = .ok r) :
    ∀ (l : List (String × String)) (acc : List (Int × String)),
      l.foldlM (dcsStep m) acc = .ok (l.foldl (scanStep r) acc) := by
  intro l
  induction l with
  | nil => intro acc; rfl
  | cons kv t ih =>
    intro acc
    rw [List.foldlM_cons, List.foldl_cons]
    cases hp : parseShortName kv.1 with
    | none =>
      simp only [dcsStep, scanStep, hp, pureOk, okBind, ih]
    | some dc =>
      by_cases hdc : dc ≠ r
      · simp only [dcsStep, scanStep, hp, h, okBind, pureOk, if_pos hdc, ih]
      · simp only [dcsStep, scanStep, hp, h, okBind, pureOk, if_neg hdc, ih]

theorem dcs_eq_foldl {m : AttrMap} {r : Int} (h : refDc m = .ok r) :
    dcs m = .ok (m.foldl (scanStep r) []) :=
  foldlM_dcsStep h m []

theorem any_eq_keys (d : List (Int × String)) (k : Int) :
    d.any (fun p => p.1 == k) = true ↔ k ∈ d.map Prod.fst := by
  simp only [List.any_eq_true, List.mem_map, beq_iff_eq]

theorem keys_insertDict_mem {d : List (Int × String)} {k : Int}
    (h : k ∈ d.map Prod.fst) (v : String) :
    (insertDict d k v).map Prod.fst = d.map Prod.fst := by
  unfold insertDict
  rw [if_pos ((any_eq_keys d k).mpr h), List.map_map]
  apply List.map_congr_left
  intro p _
  by_cases hp : p.1 = k <;> simp [Function.comp, hp]

theorem keys_insertDict_not_mem {d : List (Int × String)} {k : Int}
    (h : k ∉ d.map Prod.fst) (v : String) :
    (insertDict d k v).map Prod.fst = d.map Prod.fst ++ [k] := by
  unfold insertDict
  rw [if_neg (fun hc => h ((any_eq_keys d k).mp hc)), List.map_append]
  rfl

theorem nodup_keys_insertDict {d : List (Int × String)}
    (h : (d.map Prod.fst).Nodup) (k : Int) (v : String) :
    ((insertDict d k v).map Prod.fst).Nodup := by
  by_cases hk : k ∈ d.map Prod.fst
  · rw [keys_insertDict_mem hk]; exact h
  · rw [keys_insertDict_not_mem hk]
    simp [List.nodup_append, h, hk]

theorem mem_keys_insertDict {d : List (Int × String)} (x k : Int) (v : String) :
    x ∈ (insertDict d k v).map Prod.fst ↔ x ∈ d.map Prod.fst ∨ x = k := by
  by_cases hk : k ∈ d.map Prod.fst
  · rw [keys_insertDict_mem hk]
    exact ⟨Or.inl, fun h => h.elim id (fun e => e ▸ hk)⟩
  · rw [keys_insertDict_not_mem hk]
    simp

theorem foldl_scan_keys (r : Int) :
    ∀ (l : List (String × String)) (acc : List (Int × String)),
      ((acc.map Prod.fst).Nodup → ((l.foldl (scanStep r) acc).map Prod.fst).Nodup) ∧
      (∀ x, x ∈ (l.foldl (scanStep r) acc).map Prod.fst ↔
        x ∈ acc.map Prod.fst ∨
          x ∈ (l.filterMap (fun kv => parseShortName kv.1)).filter (fun dc => dc ≠ r)) := by
  intro l
  induction l with
  | nil => intro acc; simp
  | cons kv t ih =>
    intro acc
    rw [List.foldl_cons]
    cases hp : parseShortName kv.1 with
    | none =>
      have ihh := ih acc
      simp only [scanStep, hp]
      simpa [List.filterMap_cons, hp] using ihh
    | some dc =>
      by_cases hdc : dc ≠ r
      · have ihh := ih (insertDict acc dc kv.1)
        simp only [scanStep, hp, if_pos hdc]
        constructor
        · intro hnd; exact ihh.1 (nodup_keys_insertDict hnd dc kv.1)
        · intro x
          rw [ihh.2 x, mem_keys_insertDict]
          simp only [List.filterMap_cons, hp, List.filter_cons]
          simp [hdc]
          tauto
      · have ihh := ih acc
        simp only [scanStep, hp, if_neg hdc]
        simpa [List.filterMap_cons, hp, List.filter_cons, hdc] using ihh

theorem tryCI_eq_tryTemplate (g : Nat) (name : String) :
    tryCIForGroup g name = tryTemplate name (g, true) := rfl

theorem tryGroup_eq (g : Nat) (name : String) :
    tryGroup g name =
      (tryTemplate name (g, false)).orElse (fun _ => tryTemplate name (g, true)) := by
  unfold tryGroup tryTemplate tryCIForGroup
  cases hm : matchPrimary g name with
  | none => simp [hm, Option.orElse]
  | some p =>
    by_cases hc : p.metric ∈ metric_groups g <;>
      simp [hm, hc, Option.orElse]

theorem parse_eq_firstMatch (name : String) :
    parse_varname name = firstMatchParse name := by
  unfold parse_varname firstMatchParse templateOrder metric_group_keys
  simp only [parseGroups, tryGroup_eq, List.findSome?]
  cases tryTemplate name (0, false) <;> cases tryTemplate name (0, true) <;>
    cases tryTemplate name (2, false) <;> cases tryTemplate name (2, true) <;>
    cases tryTemplate name (3, false) <;> cases tryTemplate name (3, true) <;>
    simp [Option.orElse]

theorem getAttrAux_eq_firstExpected {α : Type} [DecidableEq α] (prev : α) (l : List α) :
    get_attribute.getAttrAux prev l = firstExpectedFold prev l := by
  induction l generalizing prev with
  | nil => rfl
  | cons v vs ih =>
    by_cases hv : v = prev
    · subst hv; simp [get_attribute.getAttrAux, firstExpectedFold, ih]
    · simp [get_attribute.getAttrAux, firstExpectedFold, hv]

theorem firstExpected_error_iff {α : Type} [DecidableEq α] (e : α) (l : List α) :
    firstExpectedFold e l = .error .inconsistentAttribute ↔ ∃ x ∈ l, x ≠ e := by
  induction l with
  | nil => simp [firstExpectedFold]
  | cons v vs ih =>
    by_cases hv : v = e
    · subst hv; simp [firstExpectedFold, ih]
    · simp [firstExpectedFold, hv]

theorem firstExpected_ok_of_all {α : Type} [DecidableEq α] (e : α) (l : List α)
    (h : ∀ x ∈ l, x = e) : firstExpectedFold e l = .ok e := by
  induction l with
  | nil => rfl
  | cons v vs ih =>
    have hv := h v (List.mem_cons_self v vs)
    simp [firstExpectedFold, hv, ih (fun x hx => h x (List.mem_cons_of_mem v hx))]

theorem dataset_metadata_fst {m : AttrMap} {id : Int} {x : Int × Names}
    (h : dataset_metadata m id = .ok x) : x.1 = id := by
  unfold dataset_metadata at h
  rw [bindOk] at h
  obtain ⟨dc, _, h⟩ := h
  rw [bindOk] at h
  obtain ⟨nm, _, h⟩ := h
  simp only [pureOk] at h
  injection h with h2
  rw [← h2]

theorem mapErr {α β : Type} {x : Except Err α} {f : α → β} {e : Err}
    (h : x.map f = .error e) : x = .error e := by
  cases x with
  | ok a =>
    rw [mapOfOk] at h
    exact Except.noConfusion h
  | error e2 =>
    rw [mapOfErr] at h
    injection h with h
    rw [h]

theorem bindErr {α β : Type} {x : Except Err α} {f : α → Except Err β} {e : Err}
    (h : x >>= f = .error e) : x = .error e ∨ ∃ a, x = .ok a ∧ f a = .error e := by
  cases x with
  | error e2 =>
    left
    rw [errBind] at h
    injection h with h
    rw [h]
  | ok a =>
    right
    rw [okBind] at h
    exact ⟨a, rfl, h⟩

theorem pureNotErr {α : Type} {a : α} {e : Err}
    (h : (pure a : Except Err α) = .error e) : False := by
  rw [pureOk] at h
  exact Except.noConfusion h

theorem refDc_error {m : AttrMap} {e : Err} (h : refDc m = .error e) :
    e = .missingReference ∨ e = .refValueNotParsed ∨ e = .keyError := by
  unfold refDc at h
  split at h
  · injection h with h
    exact Or.inl h.symm
  · split at h
    · injection h with h
      exact Or.inr (Or.inl h.symm)
    · exact Except.noConfusion h

theorem offset_error {m : AttrMap} {e : Err} (h : offset m = .error e) :
    e = .missingReference ∨ e = .refValueNotParsed ∨ e = .keyError :=
  refDc_error (mapErr h)

theorem id2dc_error {m : AttrMap} {i : Int} {e : Err} (h : id2dc m i = .error e) :
    e = .missingReference ∨ e = .refValueNotParsed ∨ e = .keyError := by
  unfold id2dc at h
  rcases bindErr h with h | ⟨a, _, h⟩
  · exact offset_error h
  · exact (pureNotErr h).elim

theorem attrGet_error {m : AttrMap} {k : String} {e : Err}
    (h : attrGet m k = .error e) : e = .keyError := by
  unfold attrGet at h
  split at h
  · exact Except.noConfusion h
  · injection h with h
    exact h.symm

theorem dcNames_error {m : AttrMap} {dc : Int} {e : Err}
    (h : dcNames m dc = .error e) : e = .keyError := by
  unfold dcNames at h
  rcases bindErr h with h | ⟨a, _, h⟩
  · exact attrGet_error h
  rcases bindErr h with h | ⟨b, _, h⟩
  · exact attrGet_error h
  rcases bindErr h with h | ⟨c, _, h⟩
  · exact attrGet_error h
  rcases bindErr h with h | ⟨d, _, h⟩
  · exact attrGet_error h
  · exact (pureNotErr h).elim

theorem dataset_metadata_error {m : AttrMap} {id : Int} {e : Err}
    (h : dataset_metadata m id = .error e) :
    e = .missingReference ∨ e = .refValueNotParsed ∨ e = .keyError := by
  unfold dataset_metadata at h
  rcases bindErr h with h | ⟨a, _, h⟩
  · exact id2dc_error h
  rcases bindErr h with h | ⟨b, _, h⟩
  · exact Or.inr (Or.inr (dcNames_error h))
  · exact (pureNotErr h).elim

theorem refIdAux_error {m : AttrMap} {e : Err} (h : refIdAux m = .error e) :
    e = .missingReference ∨ e = .refValueNotParsed ∨ e = .keyError := by
  unfold refIdAux at h
  rcases bindErr h with h | ⟨a, _, h⟩
  · exact refDc_error h
  rcases bindErr h with h | ⟨b, _, h⟩
  · exact offset_error h
  · exact (pureNotErr h).elim

theorem partsGet_error {α : Type} {o : Option α} {e : Err}
    (h : partsGet o = .error e) : e = .keyError := by
  cases o with
  | some a => exact Except.noConfusion h
  | none =>
    have h2 : (Except.error .keyError : Except Err α) = .error e := h
    injection h2 with h2
    exact h2.symm

theorem get_varmeta_error {m : AttrMap} {g : Nat} {p : Parts} {e : Err}
    (h : get_varmeta m g p = .error e) :
    e = .missingReference ∨ e = .refValueNotParsed ∨ e = .keyError := by
  unfold get_varmeta at h
  by_cases hg : g = 0
  · rw [if_pos hg] at h
    rcases bindErr h with h | ⟨a, _, h⟩
    · exact refIdAux_error h
    rcases bindErr h with h | ⟨b, _, h⟩
    · exact dataset_metadata_error h
    · exact (pureNotErr h).elim
  · rw [if_neg hg] at h
    rcases bindErr h with h | ⟨ridv, _, h⟩
    · exact Or.inr (Or.inr (partsGet_error h))
    rcases bindErr h with h | ⟨rv, _, h⟩
    · exact dataset_metadata_error h
    rcases bindErr h with h | ⟨s0, _, h⟩
    · exact Or.inr (Or.inr (partsGet_error h))
    rcases bindErr h with h | ⟨mds0, _, h⟩
    · exact dataset_metadata_error h
    by_cases hg3 : g = 3
    · rw [if_pos hg3] at h
      rcases bindErr h with h | ⟨mi, _, h⟩
      · exact Or.inr (Or.inr (partsGet_error h))
      rcases bindErr h with h | ⟨mdsv, _, h⟩
      · exact dataset_metadata_error h
      rcases bindErr h with h | ⟨s1, _, h⟩
      · exact Or.inr (Or.inr (partsGet_error h))
      rcases bindErr h with h | ⟨dss1, _, h⟩
      · exact dataset_metadata_error h
      by_cases hc : dss1 = mdsv
      · rw [if_pos hc] at h
        rcases bindErr h with h | ⟨y, _, h⟩
        · exact dataset_metadata_error h
        · exact (pureNotErr h).elim
      · rw [if_neg hc] at h
        rcases bindErr h with h | ⟨y, _, h⟩
        · exact (pureNotErr h).elim
        · exact (pureNotErr h).elim
    · rw [if_neg hg3] at h
      exact (pureNotErr h).elim

/-! ## The claims -/

/-- Claim C5 (confirmed): building the dataset registry from an attribute map
lacking the attribute key that names the reference dataset fails with the
missing-reference error (`KeyError` in `QA4SMDatasets._ref_dc`, the spec's
`MissingReferenceAttribute`), and the error propagates to the dependent
`offset` computation; when the key is present this error is never raised
(a malformed value raises the distinct `refValueNotParsed` error instead). -/
theorem missing_reference_error_iff :
    ∀ m : AttrMap,
      (refDc m = .error .missingReference ↔ lookupAttr m refDsAttr = none) ∧
      (offset m = .error .missingReference ↔ lookupAttr m refDsAttr = none) := by
  intro m
  cases hl : lookupAttr m refDsAttr with
  | none => simp [refDc, offset, hl, mapOfErr]
  | some v =>
    cases hp : parseShortName v with
    | none => simp [refDc, offset, hl, hp, mapOfErr]
    | some dc => simp [refDc, offset, hl, hp, mapOfOk]

/-- Claim C1 (corrected): the offset is `-1` exactly when the reference's
internal index is non-zero, as claimed; but every exposed DatasetId equals
`DatasetIndex - offset`, not `DatasetIndex + offset`: the reference id is
`self._ref_dc() - self.offset` and the other ids are `dc - self.offset`, so
internal reference index 4 yields offset `-1` and reference DatasetId `5`,
not `3`. -/
theorem dataset_id_offset_relation (m : AttrMap) (dc : Int) (h : refDc m = .ok dc) :
    offset m = .ok (if dc ≠ 0 then -1 else 0) ∧
    ref_id m = .ok (dc - (if dc ≠ 0 then -1 else 0)) ∧
    ∀ d, dcs m = .ok d →
      others_id m = .ok (d.map (fun p => p.1 - (if dc ≠ 0 then -1 else 0))) := by
  have hoff : offset m = .ok (if dc ≠ 0 then -1 else 0) := by
    unfold offset; rw [h, mapOfOk]
  refine ⟨hoff, ?_, ?_⟩
  · unfold ref_id
    simp only [h, hoff, okBind, pureOk]
  · intro d hd
    unfold others_id
    rw [hd, okBind]
    exact mapM_offset_ok hoff d

/-- Claim C1, the claim as stated refuted at a concrete input: on the spec's
own scenario (reference at internal index 4) the code computes reference
DatasetId 5, not `4 + (-1) = 3`. -/
theorem dataset_id_offset_claim_counterexample :
    refDc attrsRef4 = .ok 4 ∧ offset attrsRef4 = .ok (-1) ∧
    ref_id attrsRef4 = .ok 5 ∧ ¬ref_id attrsRef4 = .ok (4 + (-1)) := by decide

/-- Claim C1, witness: the amended relation evaluated on the concrete
scenario. -/
theorem dataset_id_offset_relation_witness :
    offset attrsRef4 = .ok (-1) ∧ ref_id attrsRef4 = .ok 5 ∧
    others_id attrsRef4 = .ok [2, 3, 4] := by
  have h := dataset_id_offset_relation attrsRef4 4 (by decide)
  refine ⟨h.1.trans (by decide), h.2.1.trans (by decide), ?_⟩
  have h3 := h.2.2
    [(1, "val_dc_dataset1"), (2, "val_dc_dataset2"), (3, "val_dc_dataset3")]
    (by decide)
  exact h3.trans (by decide)

/-- Claim C9 (confirmed): for every attribute map from which the reference
index can be read, the dataset count is one plus the number of distinct
non-reference internal indices captured from short-name attribute keys. -/
theorem n_datasets_count (m : AttrMap) (r : Int) (h : refDc m = .ok r) :
    n_datasets m = .ok (1 +
      ((m.filterMap (fun kv => parseShortName kv.1)).filter
        (fun dc => dc ≠ r)).toFinset.card) := by
  have hd := dcs_eq_foldl h
  have hk := foldl_scan_keys r m []
  unfold n_datasets
  rw [hd, mapOfOk]
  have hnd : ((m.foldl (scanStep r) []).map Prod.fst).Nodup := hk.1 (by simp)
  have hfin : ((m.foldl (scanStep r) []).map Prod.fst).toFinset =
      ((m.filterMap (fun kv => parseShortName kv.1)).filter
        (fun dc => dc ≠ r)).toFinset := by
    ext x
    simp only [List.mem_toFinset]
    simpa using hk.2 x
  have hlen : (m.foldl (scanStep r) []).length =
      ((m.filterMap (fun kv => parseShortName kv.1)).filter
        (fun dc => dc ≠ r)).toFinset.card := by
    calc (m.foldl (scanStep r) []).length
        = ((m.foldl (scanStep r) []).map Prod.fst).length :=
          (List.length_map _ _).symm
      _ = ((m.foldl (scanStep r) []).map Prod.fst).toFinset.card :=
          (List.toFinset_card_of_nodup hnd).symm
      _ = _ := by rw [hfin]
  congr 1
  omega

/-- Claim C9, witness: the four-dataset scenario has count 4. -/
theorem n_datasets_count_witness : n_datasets attrsRef4 = .ok 4 := by
  have h := n_datasets_count attrsRef4 4 (by decide)
  exact h.trans (by decide)

/-- Claim C10 (confirmed): `_id2dc` is the exact inverse of the exposed-id
computation — applied to the exposed reference id it recovers the reference's
internal index, and applied to each element of `others_id` it recovers the
originating non-reference internal index, whatever the offset. -/
theorem id2dc_inverse (m : AttrMap) (dc off : Int)
    (h1 : refDc m = .ok dc) (h2 : offset m = .ok off) :
    (∀ rid, ref_id m = .ok rid → id2dc m rid = .ok dc) ∧
    ∀ d, dcs m = .ok d →
      others_id m = .ok (d.map (fun p => p.1 - off)) ∧
      ∀ p ∈ d, id2dc m (p.1 - off) = .ok p.1 := by
  have hid : ∀ i : Int, id2dc m i = .ok (i + off) := fun i => by
    unfold id2dc; simp only [h2, okBind, pureOk]
  constructor
  · intro rid hr
    unfold ref_id at hr
    simp only [h1, h2, okBind, pureOk] at hr
    injection hr with he
    rw [hid rid, ← he]
    congr 1
    ring
  · intro d hd
    refine ⟨?_, ?_⟩
    · unfold others_id
      rw [hd, okBind]
      exact mapM_offset_ok h2 d
    · intro p _
      rw [hid]
      congr 1
      ring

/-- Claim C10, witness: on the concrete scenario, the exposed reference id 5
maps back to internal index 4 and the exposed id 2 maps back to internal
index 1. -/
theorem id2dc_inverse_witness :
    id2dc attrsRef4 5 = .ok 4 ∧ id2dc attrsRef4 2 = .ok 1 := by
  have h := id2dc_inverse attrsRef4 4 (-1) (by decide) (by decide)
  constructor
  · exact h.1 5 (by decide)
  · have h2 := (h.2
      [(1, "val_dc_dataset1"), (2, "val_dc_dataset2"), (3, "val_dc_dataset3")]
      (by decide)).2 (1, "val_dc_dataset1") (by decide)
    simpa using h2

theorem partsGet_some {α : Type} (a : α) : partsGet (some a) = .ok a := rfl

/-- Claim C3 (confirmed): parsing a variable name is total by construction
(`parse_varname` is a plain function into `Option`, mirroring the Python code
which returns `(None, None, None)` instead of raising), and it returns `none`
exactly when no template of any group matches with a metric token in that
group's known-metric set; in particular the bookkeeping names `lat`, `time`
and `gpi` parse to "not a metric". -/
theorem parse_total_none_iff :
    (∀ name, parse_varname name = none ↔
      ∀ t ∈ templateOrder, tryTemplate name t = none) ∧
    parse_varname "lat" = none ∧ parse_varname "time" = none ∧
    parse_varname "gpi" = none := by
  refine ⟨fun name => ?_, by decide, by decide, by decide⟩
  rw [parse_eq_firstMatch]
  exact List.findSome?_eq_none_iff

/-- Claim C4 (confirmed): `_parse_varname` tries the groups in the fixed
priority order `0, 2, 3`, within each group the primary template before the
confidence-interval template, and returns on the first template whose match
carries a metric token of that group's known-metric set: it coincides with
the first-accepting-template description `firstMatchParse` on every name. -/
theorem parse_first_match_priority :
    (∀ name, parse_varname name = firstMatchParse name) ∧
    parse_varname "R_between_4-ERA5_and_1-C3S" =
      some ("R", 2, { metric := "R", ref_id := some 4, ref_ds := some "ERA5",
                      sat_id0 := some 1, ds0 := some "C3S" }) :=
  ⟨parse_eq_firstMatch, by decide⟩

/-- Claim C7 (confirmed): aggregating the variables' values of one shared
attribute is the spec's fold — the first variable's value is the expected one,
every later variable is compared against it, short-circuiting on the first
mismatch with the consistency error (`AssertionError` in the code, the spec's
`InconsistentMetricAttribute`); it errors exactly when some variable disagrees
with the first, and returns the shared value when all agree. -/
theorem aggregate_consistency {α : Type} [DecidableEq α] (v : α) (vs : List α) :
    get_attribute (v :: vs) = firstExpectedFold v vs ∧
    (get_attribute (v :: vs) = .error .inconsistentAttribute ↔ ∃ x ∈ vs, x ≠ v) ∧
    ((∀ x ∈ vs, x = v) → get_attribute (v :: vs) = .ok v) := by
  have he : get_attribute (v :: vs) = firstExpectedFold v vs :=
    getAttrAux_eq_firstExpected v vs
  refine ⟨he, ?_, ?_⟩
  · rw [he]
    exact firstExpected_error_iff v vs
  · intro hall
    rw [he]
    exact firstExpected_ok_of_all v vs hall

/-- Claim C7, witness: two group values that disagree error, two that agree
expose the shared value. -/
theorem aggregate_consistency_witness :
    get_attribute ([some 2, some 3] : List (Option Nat)) =
      .error .inconsistentAttribute ∧
    get_attribute ([some 2, some 2] : List (Option Nat)) = .ok (some 2) := by
  constructor
  · exact (aggregate_consistency (some 2) [some 3]).2.1.mpr ⟨some 3, by simp, by simp⟩
  · exact (aggregate_consistency (some 2) [some 2]).2.2 (by simp)

/-- Claim C6 (code_bug): `is_CI` correctly reports whether a variable carries
a bound, and the spec says `has_CIs` is true iff at least one variable does;
but `QA4SMMetric.has_CIs` invokes `Var.is_CI()` although `is_CI` is a
property already evaluated to a `bool`, so the call raises
`TypeError: 'bool' object is not callable` for every nonempty variable
sequence — aggregating one CI and one non-CI pairwise variable errors instead
of yielding `true`. -/
theorem has_CIs_type_error :
    Variable.init "R_ci_upper_between_0-R_and_1-X" attrsTwo = .ok ciVar ∧
    Variable.init "R_between_0-R_and_1-X" attrsTwo = .ok plainVar ∧
    ciVar.is_CI = true ∧ plainVar.is_CI = false ∧
    (ciVar.is_CI || plainVar.is_CI) = true ∧
    has_CIs [ciVar, plainVar] = .error .typeErr := by decide

/-- Claim C8 (corrected): constructing a variable from a name that parses to
no metric group does not fail at all — it returns a variable object with
group `none`, no attached metadata, and `ismetric = false` as the benign skip
signal.  There is no `NotAMetricVariable` exception anywhere in the code: the
`Err` type enumerates every failure the translated code can raise, and the
second conjunct proves that for any name whatsoever (group none or not) the
constructor can only fail with a registry lookup error — the missing or
malformed reference attribute, or a missing attribute/parts key — never with
any "not a metric" signal. -/
theorem non_metric_init_ok (name : String) (m : AttrMap) :
    (parse_varname name = none →
      Variable.init name m =
        .ok { varname := name, metric := none, g := none, parts := none,
              metricPretty := none, ref_ds := none, metric_ds := none,
              other_ds := none, bound := none } ∧
      Variable.ismetric
        { varname := name, metric := none, g := none, parts := none,
          metricPretty := none, ref_ds := none, metric_ds := none,
          other_ds := none, bound := none } = false) ∧
    ∀ e : Err, Variable.init name m = .error e →
      e = .missingReference ∨ e = .refValueNotParsed ∨ e = .keyError := by
  constructor
  · intro h
    constructor
    · unfold Variable.init
      rw [h]
      rfl
    · rfl
  · intro e h
    unfold Variable.init at h
    split at h
    · split at h
      · rcases bindErr h with h2 | ⟨meta, _, h2⟩
        · exact get_varmeta_error h2
        · exact (pureNotErr h2).elim
      · exact (pureNotErr h).elim
    · exact (pureNotErr h).elim

/-- Claim C8, witness: the bookkeeping name `time` constructs successfully
with `ismetric = false`. -/
theorem non_metric_init_ok_witness :
    Variable.init "time" attrsTwo =
      .ok { varname := "time", metric := none, g := none, parts := none,
            metricPretty := none, ref_ds := none, metric_ds := none,
            other_ds := none, bound := none } ∧
    Variable.ismetric
      { varname := "time", metric := none, g := none, parts := none,
        metricPretty := none, ref_ds := none, metric_ds := none,
        other_ds := none, bound := none } = false :=
  (non_metric_init_ok "time" attrsTwo).1 (by decide)

/-- Claim C8, the claim as stated refuted: resolving the non-metric name
`lat` succeeds (returns `.ok`, no error of any kind), rather than failing
with a `NotAMetricVariable` error. -/
theorem not_a_metric_error_counterexample :
    Variable.init "lat" attrsTwo =
      .ok { varname := "lat", metric := none, g := none, parts := none,
            metricPretty := none, ref_ds := none, metric_ds := none,
            other_ds := none, bound := none } ∧
    (Variable.init "lat" attrsTwo).map Variable.ismetric = .ok false := by decide

/-- Claim C2 (corrected): in a triple-collocation resolution, when the second
candidate slot (`sat_id1`) resolves to the same `(id, metadata)` pair as the
metric dataset, the "other" slot is re-resolved from the alternate candidate
id (`sat_id0`); the metric dataset and the other dataset of the result are
distinct whenever at least one of the two candidate ids differs from the
metric-dataset id.  (The claim's unconditional "never identical" fails for
the degenerate name whose three ids coincide — see the counterexample.) -/
theorem tc_disambiguation_distinct (m : AttrMap) (p : Parts) (mi s0 s1 : Int)
    (hmi : p.mds_id = some mi) (hs0 : p.sat_id0 = some s0)
    (hs1 : p.sat_id1 = some s1) (hne : s0 ≠ mi ∨ s1 ≠ mi)
    (r mds dss : Int × Names)
    (h : get_varmeta m 3 p = .ok (r, some mds, some dss)) :
    mds ≠ dss ∧
    ∀ x, dataset_metadata m s1 = .ok x → x = mds →
      dataset_metadata m s0 = .ok dss := by
  unfold get_varmeta at h
  rw [if_neg (by decide : ¬(3 = 0))] at h
  simp only [hmi, hs0, hs1, partsGet_some, okBind] at h
  rw [bindOk] at h
  obtain ⟨ridv, hridv, h⟩ := h
  rw [bindOk] at h
  obtain ⟨rv, hrv, h⟩ := h
  rw [bindOk] at h
  obtain ⟨mds0, hmds0, h⟩ := h
  rw [if_pos trivial] at h
  rw [bindOk] at h
  obtain ⟨mdsv, hmdsv, h⟩ := h
  rw [bindOk] at h
  obtain ⟨dss1, hdss1, h⟩ := h
  by_cases hc : dss1 = mdsv
  · rw [if_pos hc] at h
    rw [bindOk] at h
    obtain ⟨dssv, hdssv, h⟩ := h
    simp only [pureOk] at h
    injection h with h2
    rw [Prod.ext_iff] at h2
    obtain ⟨hr2, h2⟩ := h2
    rw [Prod.ext_iff] at h2
    obtain ⟨hm2, hd2⟩ := h2
    simp only at hm2 hd2
    injection hm2 with hm2
    injection hd2 with hd2
    subst hm2
    subst hd2
    have hfst0 : dssv.1 = s0 := dataset_metadata_fst hdssv
    have hfst1 : dss1.1 = s1 := dataset_metadata_fst hdss1
    have hfstm : mdsv.1 = mi := dataset_metadata_fst hmdsv
    have hs1mi : s1 = mi := by rw [← hfst1, hc, hfstm]
    have hs0mi : s0 ≠ mi := by
      rcases hne with hne | hne
      · exact hne
      · exact absurd hs1mi hne
    refine ⟨?_, ?_⟩
    · intro heq
      apply hs0mi
      rw [← hfst0, ← heq, hfstm]
    · intro x hx _
      exact hdssv
  · rw [if_neg hc] at h
    simp only [okBind, pureOk] at h
    injection h with h2
    rw [Prod.ext_iff] at h2
    obtain ⟨hr2, h2⟩ := h2
    rw [Prod.ext_iff] at h2
    obtain ⟨hm2, hd2⟩ := h2
    simp only at hm2 hd2
    injection hm2 with hm2
    injection hd2 with hd2
    subst hm2
    subst hd2
    refine ⟨fun heq => hc heq.symm, ?_⟩
    intro x hx hxm
    rw [hdss1] at hx
    injection hx with hx
    exact absurd (hx ▸ hxm) hc

/-- Claim C2, witness: the amended disambiguation applied at a concrete
triple-collocation resolution where the metric dataset coincides with the
second candidate — the other slot is re-resolved to the alternate candidate
and the two slots are distinct. -/
theorem tc_disambiguation_distinct_witness :
    get_varmeta attrsThree 3 tcParts =
      .ok ((0, namesRef), some (1, namesX), some (2, namesY)) ∧
    ¬((1, namesX) : Int × Names) = ((2, namesY) : Int × Names) := by
  refine ⟨by decide, ?_⟩
  exact (tc_disambiguation_distinct attrsThree tcParts 1 2 1 rfl rfl rfl
    (Or.inl (by decide)) (0, namesRef) (1, namesX) (2, namesY) (by decide)).1

/-- Claim C2, the claim as stated refuted: the degenerate triple-collocation
name whose metric-dataset id and both candidate ids coincide parses, resolves
without error, and yields a MetricVariable whose metric dataset and other
dataset are the same `(id, metadata)` pair even after the re-resolution
step. -/
theorem tc_disambiguation_counterexample :
    parse_varname "snr_1-X_between_0-R_and_1-X_and_1-X" =
      some ("snr", 3, degParts) ∧
    (Variable.init "snr_1-X_between_0-R_and_1-X_and_1-X" attrsTwo).map
      (fun v => (v.metric_ds, v.other_ds)) =
      .ok (some (1, namesX), some (1, namesX)) := by decide

/-- Claim C3, witness: the totality characterization applied at the concrete
name `lat`, discharging the all-templates-reject side by evaluation. -/
theorem parse_total_none_iff_witness : parse_varname "lat" = none :=
  (parse_total_none_iff.1 "lat").mpr (by decide)

/-- Claim C4, witness: the first-match-wins description applied at the
concrete name `n_obs`. -/
theorem parse_first_match_priority_witness :
    parse_varname "n_obs" = firstMatchParse "n_obs" :=
  parse_first_match_priority.1 "n_obs"

/-- Claim C5, witness: an attribute map without the reference key fails with
the missing-reference error. -/
theorem missing_reference_error_iff_witness :
    refDc [("some_other_key", "v")] = .error .missingReference :=
  ((missing_reference_error_iff [("some_other_key", "v")]).1).mpr (by decide)

end Qa4sm
